import Mathlib

/-!
Shallow embedding of the portfolio client-side code
(src/js/config.js, src/js/main.js, src/js/sections.js, src/docs/js/utils.js).

The program is single-threaded, event-driven JavaScript that mutates the DOM.
We embed each relevant function as a pure Lean function: DOM mutation becomes
explicit state passing, `querySelector` results become `Option`, JS string
truthiness (`if (userInfo.name)`) becomes a non-empty-string test, and the
`setTimeout`/`clearTimeout` machinery of `debounce` becomes an explicit
simulation over a time-stamped call trace.
-/

namespace Portfolio

/-! ## Config (src/js/config.js) -/

/-- The `animations` group of `PortfolioConfig` (config.js lines 8-12). -/
structure AnimationsConfig where
  enabled : Bool
  duration : Nat
  easing : String
deriving Repr, DecidableEq

/-- Per-section configuration record (config.js lines 25-29). -/
structure SectionConfig where
  enabled : Bool
  animationDelay : Nat
deriving Repr, DecidableEq

/-- The `sections` table of the constructed `PortfolioConfig`
(config.js lines 25-29): hero 100, projects 200, skills 300. -/
def sectionsTable : String → Option SectionConfig
  | "hero" => some { enabled := true, animationDelay := 100 }
  | "projects" => some { enabled := true, animationDelay := 200 }
  | "skills" => some { enabled := true, animationDelay := 300 }
  | _ => none

/-- `getSectionConfig(sectionName)` (config.js lines 37-39): returns the
section entry, or the empty object `{}` for an unknown section; we model the
empty object as `none`. -/
def getSectionConfig (sectionName : String) : Option SectionConfig :=
  sectionsTable sectionName

/-- `this.config.animationDelay || 0` as read in `BaseSection.setupAnimations`
(sections.js line 44): an absent config slice contributes delay 0. -/
def animationDelayOrZero : Option SectionConfig → Nat
  | some c => c.animationDelay
  | none => 0

/-- The browser environment state that `window.matchMedia` reads. -/
structure MediaEnvironment where
  prefersReducedMotion : Bool
deriving Repr, DecidableEq

/-- `window.matchMedia(query).matches` restricted to the only query the
program issues. -/
def matchMediaMatches (env : MediaEnvironment) (query : String) : Bool :=
  if query = "(prefers-reduced-motion: reduce)" then env.prefersReducedMotion
  else false

/-- `areAnimationsEnabled()` (config.js lines 53-55):
`this.animations.enabled && !window.matchMedia(reduced-motion query).matches`. -/
def areAnimationsEnabled (animations : AnimationsConfig) (env : MediaEnvironment) : Bool :=
  animations.enabled && !(matchMediaMatches env "(prefers-reduced-motion: reduce)")

/-! ## DOM utilities (src/docs/js/utils.js) -/

/-- A DOM element as far as the scroll handler needs it: its class list.
`classList` never holds duplicates; `add`/`remove` below preserve that. -/
structure Element where
  classes : List String
deriving Repr, DecidableEq

/-- `element.classList.add(c)`: appends the class unless already present. -/
def classListAdd (cs : List String) (c : String) : List String :=
  if c ∈ cs then cs else cs ++ [c]

/-- `element.classList.remove(c)`: removes every occurrence of the class. -/
def classListRemove (cs : List String) (c : String) : List String :=
  cs.filter (fun x => x ≠ c)

/-- `DOMUtils.addClass(element, className)` (utils.js lines 40-44):
no-op when the element is absent or the class name is the empty string. -/
def addClass (el : Option Element) (className : String) : Option Element :=
  match el with
  | some e =>
      if className ≠ "" then some { e with classes := classListAdd e.classes className }
      else some e
  | none => none

/-- `DOMUtils.removeClass(element, className)` (utils.js lines 51-55). -/
def removeClass (el : Option Element) (className : String) : Option Element :=
  match el with
  | some e =>
      if className ≠ "" then some { e with classes := classListRemove e.classes className }
      else some e
  | none => none

/-- `DOMUtils.hasClass(element, className)` (utils.js lines 63-65):
`element && className && element.classList.contains(className)`. -/
def hasClass (el : Option Element) (className : String) : Bool :=
  match el with
  | some e => className ≠ "" && decide (className ∈ e.classes)
  | none => false

/-! ## Scroll handler (src/js/main.js lines 117-129) -/

/-- `PortfolioApp.handleScroll()` with the header element passed explicitly
(the result of the header `DOMUtils.querySelector` lookup): when the header exists,
adds the class `"scrolled"` if `scrollPosition > 100`, otherwise removes it. -/
def handleScroll (scrollPosition : Nat) (header : Option Element) : Option Element :=
  match header with
  | none => none
  | some h =>
      if scrollPosition > 100 then addClass (some h) "scrolled"
      else removeClass (some h) "scrolled"

/-! ## Project link click handler (src/js/sections.js lines 177-186) -/

/-- `link.getAttribute(name)` over an attribute list; `none` models the JS
`null` returned for an absent attribute. -/
def getAttribute (attrs : List (String × String)) (name : String) : Option String :=
  (attrs.find? (fun p => p.1 = name)).map Prod.snd

/-- A click event whose target is the project link: the attributes of the link and
the `defaultPrevented` flag of the event. -/
structure ClickEvent where
  targetAttrs : List (String × String)
  defaultPrevented : Bool
deriving Repr, DecidableEq

/-- `ProjectsSection.handleProjectClick(event, projectIndex)`: reads the href
attribute; when it is exactly the one-character string `#`, calls `event.preventDefault()` and logs
`Projeto N clicado - Configure o link real`. The second component collects
the console messages the call emits. -/
def handleProjectClick (event : ClickEvent) (projectIndex : Nat) :
    ClickEvent × List String :=
  let href := getAttribute event.targetAttrs "href"
  if href = some "#" then
    ({ event with defaultPrevented := true },
      ["Projeto " ++ toString (projectIndex + 1) ++ " clicado - Configure o link real"])
  else
    (event, [])

/-! ## Hero section: updateUserInfo (src/js/sections.js lines 99-115) -/

/-- The three DOM nodes `updateUserInfo` targets, each `none` when the
corresponding `querySelector` found nothing, otherwise carrying its
`textContent`. -/
structure HeroDom where
  nameText : Option String
  taglineText : Option String
  summaryText : Option String
deriving Repr, DecidableEq

/-- The `userInfo` argument: each field `none` when omitted. -/
structure UserInfo where
  name : Option String := none
  tagline : Option String := none
  summary : Option String := none
deriving Repr, DecidableEq

/-- JS truthiness of an optional string field: present and non-empty. -/
def truthyStr : Option String → Bool
  | some s => s ≠ ""
  | none => false

/-- `HeroSection.updateUserInfo(userInfo)`: each of the three nodes is
text-replaced exactly when the node exists and the field is truthy; the name
node receives the template string `Olá, eu sou ${userInfo.name}`, the other
two receive the field verbatim. -/
def updateUserInfo (dom : HeroDom) (u : UserInfo) : HeroDom :=
  let d1 :=
    match dom.nameText, u.name with
    | some _, some n =>
        if n ≠ "" then { dom with nameText := some ("Olá, eu sou " ++ n) } else dom
    | _, _ => dom
  let d2 :=
    match d1.taglineText, u.tagline with
    | some _, some t =>
        if t ≠ "" then { d1 with taglineText := some t } else d1
    | _, _ => d1
  match d2.summaryText, u.summary with
  | some _, some s =>
      if s ≠ "" then { d2 with summaryText := some s } else d2
  | _, _ => d2

/-! ## Section lifecycle (src/js/sections.js lines 12-47)

`BaseSection` holds the state the lifecycle claims need.  The document is
modelled as the list of element ids it contains; the constructor call
`DOMUtils.querySelector` on the section id becomes a membership lookup (the
utility catches any lookup error and returns `null`, so construction never
throws).  The variant-specific `setupEventListeners`/`setupAnimations`
overrides attach handlers and observers; for the lifecycle claims we record
how many times each ran. -/

structure BaseSection where
  sectionId : String
  element : Option Unit
  config : Option SectionConfig
  isInitd : Bool
  listenerSetups : Nat
  animationSetups : Nat
deriving Repr, DecidableEq

/-- The `BaseSection` constructor (sections.js lines 13-18): queries
`#sectionId`, reads the config slice, starts uninitialised. -/
def BaseSection.construct (dom : List String) (sectionId : String) : BaseSection :=
  { sectionId := sectionId
    element := if sectionId ∈ dom then some () else none
    config := getSectionConfig sectionId
    isInitd := false
    listenerSetups := 0
    animationSetups := 0 }

/-- `BaseSection.init()` (sections.js lines 23-29): returns at once when the
root element is absent or the section is already initialised; otherwise runs
`setupEventListeners()`, then `setupAnimations()`, then sets the flag. -/
def BaseSection.init (s : BaseSection) : BaseSection :=
  if s.element.isNone || s.isInitd then s
  else
    { s with
      listenerSetups := s.listenerSetups + 1
      animationSetups := s.animationSetups + 1
      isInitd := true }

/-! ## Application controller (src/js/main.js lines 8-54) -/

/-- `PortfolioApp` state: the section map, the idempotency flag, and counters
for how many times the global-listener and scroll-behavior wiring ran. -/
structure PortfolioApp where
  sections : List (String × BaseSection)
  isInitd : Bool
  globalListenerSetups : Nat
  scrollBehaviorSetups : Nat
deriving Repr, DecidableEq

/-- The `PortfolioApp` constructor (main.js lines 9-12). -/
def PortfolioApp.construct : PortfolioApp :=
  { sections := [], isInitd := false, globalListenerSetups := 0, scrollBehaviorSetups := 0 }

/-- `initializeSections()` (main.js lines 46-63): constructs hero, projects
and skills in that fixed order, calls `init()` on each, and stores it in the
map.  The per-section try/catch never fires in the embedding because
construction is total. -/
def buildSections (dom : List String) (app : PortfolioApp) : PortfolioApp :=
  { app with
    sections :=
      [("hero", (BaseSection.construct dom "hero").init),
       ("projects", (BaseSection.construct dom "projects").init),
       ("skills", (BaseSection.construct dom "skills").init)] }

/-- `PortfolioApp.init()` (main.js lines 17-31): returns at once when already
initialised; otherwise awaits the DOM (pure in the embedding), builds the
sections, wires global listeners and scroll behavior, and sets the flag. -/
def PortfolioApp.init (dom : List String) (app : PortfolioApp) : PortfolioApp :=
  if app.isInitd then app
  else
    let a1 := buildSections dom app
    let a2 := { a1 with globalListenerSetups := a1.globalListenerSetups + 1 }
    let a3 := { a2 with scrollBehaviorSetups := a2.scrollBehaviorSetups + 1 }
    { a3 with isInitd := true }

/-! ## Projects section: cards, handlers, addProject
(src/js/sections.js lines 120-220) -/

/-- The event handlers the projects section attaches.  `mouseenterHover` and
`mouseleaveHover` stand for the closures calling `handleCardHover(card, true)`
and `handleCardHover(card, false)`; `clickProject i` stands for the closure
calling `handleProjectClick(e, i)`. -/
inductive ProjectHandler where
  | mouseenterHover : ProjectHandler
  | mouseleaveHover : ProjectHandler
  | clickProject : Nat → ProjectHandler
deriving Repr, DecidableEq

/-- A project card node: the content written by the `addProject` `innerHTML`
template, whether the card contains a `.project-link` element, the href of
that link, and the handler lists attached to the card and to its link. -/
structure ProjectCard where
  title : String
  description : String
  hasLink : Bool
  linkHref : String
  cardHandlers : List ProjectHandler
  linkHandlers : List ProjectHandler
deriving Repr, DecidableEq

/-- The body of `ProjectsSection.setupEventListeners` for one card at index
`i` (sections.js lines 127-142): attaches mouseenter and mouseleave to the
card and, when the card has a `.project-link`, a click handler carrying the
index of the card to that link. -/
def wireProjectCard (i : Nat) (c : ProjectCard) : ProjectCard :=
  let c1 := { c with
    cardHandlers := c.cardHandlers ++
      [ProjectHandler.mouseenterHover, ProjectHandler.mouseleaveHover] }
  if c1.hasLink then
    { c1 with linkHandlers := c1.linkHandlers ++ [ProjectHandler.clickProject i] }
  else c1

/-- `ProjectsSection.setupEventListeners()` (sections.js lines 127-143):
`this.projectCards.forEach((card, index) => ...)`. -/
def wireProjectCards : Nat → List ProjectCard → List ProjectCard
  | _, [] => []
  | i, c :: rest => wireProjectCard i c :: wireProjectCards (i + 1) rest

/-- `ProjectsSection.handleCardHover(card, isHovering)` (sections.js lines
162-170), acting on the inline `transform` style of the card. -/
def handleCardHover (animationsOn : Bool) (transform : String) (isHovering : Bool) : String :=
  if !animationsOn then transform
  else if isHovering then "translateY(-10px) scale(1.02)"
  else "translateY(0) scale(1)"

/-- Dispatching one attached handler against the `transform` style of the card:
the hover handlers run `handleCardHover`; the click handler does not touch
the transform. -/
def runCardHandler (animationsOn : Bool) (transform : String) :
    ProjectHandler → String
  | ProjectHandler.mouseenterHover => handleCardHover animationsOn transform true
  | ProjectHandler.mouseleaveHover => handleCardHover animationsOn transform false
  | ProjectHandler.clickProject _ => transform

/-- The `projectData` DTO passed to `addProject`. -/
structure ProjectData where
  title : String
  description : String
  link : String
deriving Repr, DecidableEq

/-- The fresh `article.project-card` node that the `addProject` `innerHTML`
template produces (sections.js lines 196-203): title, description, and a
`.project-link` anchor whose href is `projectData.link`; no handlers yet. -/
def freshProjectCard (d : ProjectData) : ProjectCard :=
  { title := d.title
    description := d.description
    hasLink := true
    linkHref := d.link
    cardHandlers := []
    linkHandlers := [] }

/-- `ProjectsSection.setupProjectCard(card)` (sections.js lines 212-220):
attaches mouseenter and mouseleave to the card — and nothing to its link. -/
def setupProjectCard (c : ProjectCard) : ProjectCard :=
  { c with
    cardHandlers := c.cardHandlers ++
      [ProjectHandler.mouseenterHover, ProjectHandler.mouseleaveHover] }

/-- `ProjectsSection.addProject(projectData)` (sections.js lines 192-206):
no-op when `.projects-grid` is absent; otherwise builds the card from the
template, appends it to the grid, and runs `setupProjectCard` on it. -/
def addProject (gridPresent : Bool) (cards : List ProjectCard) (d : ProjectData) :
    List ProjectCard :=
  if !gridPresent then cards
  else cards ++ [setupProjectCard (freshProjectCard d)]

/-! ## Fade-in stagger (src/js/sections.js lines 146-155 and 240-249,
src/docs/js/utils.js fadeIn/observeElements) -/

/-- One scheduled `AnimationUtils.fadeIn(element, delay)` call: which element
the visibility observer fired for, and the delay passed to `fadeIn`. -/
structure ScheduledFadeIn where
  target : String
  delay : Nat
deriving Repr, DecidableEq

/-- The fade-ins the observed elements of a card/tag list receive, walking
the list with its running index `i`: `AnimationUtils.fadeIn(element, i * step)`
(`step` is 100 in sections.js line 152, 50 in line 246). -/
def staggeredFadeInsFrom (step : Nat) : Nat → List String → List ScheduledFadeIn
  | _, [] => []
  | i, t :: ts => { target := t, delay := i * step } :: staggeredFadeInsFrom step (i + 1) ts

/-- The staggered fade-ins for a whole card/tag list, indices starting at 0. -/
def staggeredFadeIns (step : Nat) (targets : List String) : List ScheduledFadeIn :=
  staggeredFadeInsFrom step 0 targets

/-- `ProjectsSection.setupAnimations()` (sections.js lines 146-155) when
animations are enabled: `super.setupAnimations()` observes the `#projects`
root and fades it in with the configured base delay of the section (`|| 0`), then
each `.project-card` is faded in with `index * 100`. -/
def projectsSetupAnimations (animationsOn : Bool) (cards : List String) :
    List ScheduledFadeIn :=
  if !animationsOn then []
  else
    { target := "#projects"
      delay := animationDelayOrZero (getSectionConfig "projects") } ::
    staggeredFadeIns 100 cards

/-- `SkillsSection.setupAnimations()` (sections.js lines 240-249): the
`#skills` root with its base delay, then each `.skill-tag` with `index * 50`. -/
def skillsSetupAnimations (animationsOn : Bool) (tags : List String) :
    List ScheduledFadeIn :=
  if !animationsOn then []
  else
    { target := "#skills"
      delay := animationDelayOrZero (getSectionConfig "skills") } ::
    staggeredFadeIns 50 tags

/-! ## Debounce (src/js/main.js lines 189-199)

```js
debounce(func, wait) {
    let timeout;
    return function executedFunction(...args) {
        const later = () => { clearTimeout(timeout); func(...args); };
        clearTimeout(timeout);
        timeout = setTimeout(later, wait);
    };
}
```

Each call cancels the pending timer and schedules `func` with the current
arguments at `now + wait`.  We simulate a trace of calls, time-stamped and in
time order, threading the pending timer; a pending timer fires when its due
time arrives before the next call (a call at or after the due time finds the
timer already fired and its `clearTimeout` clears nothing). -/

/-- Runs the debounced-call trace given the pending timer `(dueTime, args)`,
returning the invocations of the underlying `func` as `(time, args)` pairs in
order. -/
def debounceProcess (wait : Nat) :
    Option (Nat × α) → List (Nat × α) → List (Nat × α)
  | none, [] => []
  | some p, [] => [p]
  | none, (t, a) :: rest => debounceProcess wait (some (t + wait, a)) rest
  | some p, (t, a) :: rest =>
      if t < p.1 then debounceProcess wait (some (t + wait, a)) rest
      else p :: debounceProcess wait (some (t + wait, a)) rest

/-- A full run of the function returned by `debounce(func, wait)` on a
time-ordered call trace, starting with no pending timer. -/
def debounceRun (wait : Nat) (calls : List (Nat × α)) : List (Nat × α) :=
  debounceProcess wait none calls

/-- The burst condition: starting from a call at time `t`, every following
call arrives strictly less than `wait` after the one before it. -/
def burstAfter (wait : Nat) : Nat → List (Nat × α) → Bool
  | _, [] => true
  | t, (t2, _) :: rest => decide (t2 < t + wait) && burstAfter wait t2 rest

/-! ## Helper lemmas -/

/-- Adding a class makes `classList.contains` true for it. -/
theorem mem_classListAdd (cs : List String) (c : String) : c ∈ classListAdd cs c := by
  unfold classListAdd
  split
  · assumption
  · exact List.mem_append_right _ (List.mem_singleton.mpr rfl)

/-- Removing a class makes `classList.contains` false for it. -/
theorem not_mem_classListRemove (cs : List String) (c : String) :
    c ∉ classListRemove cs c := by
  unfold classListRemove
  intro hmem
  simp [List.mem_filter] at hmem

/-- The scroll handler leaves the header carrying the class `scrolled`
exactly when the scroll position exceeds 100. -/
theorem hasClass_handleScroll (p : Nat) (h : Element) :
    hasClass (handleScroll p (some h)) "scrolled" = decide (p > 100) := by
  unfold handleScroll
  by_cases hp : p > 100
  · simp only [if_pos hp, addClass, hasClass]
    simp [mem_classListAdd, hp]
  · simp only [if_neg hp, removeClass, hasClass]
    simp [not_mem_classListRemove, hp]

/-- After `PortfolioApp.init` the idempotency flag is set, whatever the
starting state. -/
theorem portfolioApp_init_flag (dom : List String) (app : PortfolioApp) :
    (PortfolioApp.init dom app).isInitd = true := by
  unfold PortfolioApp.init
  split
  · assumption
  · rfl

/-- `PortfolioApp.init` on an already-initialised app returns it unchanged. -/
theorem portfolioApp_init_of_initd (dom : List String) (app : PortfolioApp)
    (h : app.isInitd = true) : PortfolioApp.init dom app = app := by
  unfold PortfolioApp.init
  simp [h]

/-- `BaseSection.init` on an initialised section returns it unchanged. -/
theorem baseSection_init_of_initd (s : BaseSection) (h : s.isInitd = true) :
    BaseSection.init s = s := by
  unfold BaseSection.init
  simp [h]

/-- `BaseSection.init` either leaves the section untouched or sets the flag. -/
theorem baseSection_init_cases (s : BaseSection) :
    BaseSection.init s = s ∨ (BaseSection.init s).isInitd = true := by
  unfold BaseSection.init
  by_cases hg : (s.element.isNone || s.isInitd) = true
  · left
    simp [hg]
  · right
    simp [hg]

/-- The element observed at running index `j + i` receives delay
`(j + i) * step`. -/
theorem staggeredFadeInsFrom_delay (step : Nat) (ts : List String) :
    ∀ (j i : Nat), i < ts.length →
      ((staggeredFadeInsFrom step j ts)[i]?).map ScheduledFadeIn.delay =
        some ((j + i) * step) := by
  induction ts with
  | nil =>
      intro j i h
      simp at h
  | cons t ts ih =>
      intro j i h
      cases i with
      | zero => simp [staggeredFadeInsFrom]
      | succ n =>
          have hn : n < ts.length := by simpa using h
          have h2 := ih (j + 1) n hn
          have hidx : j + 1 + n = j + (n + 1) := by omega
          calc ((staggeredFadeInsFrom step j (t :: ts))[n + 1]?).map ScheduledFadeIn.delay
              = ((staggeredFadeInsFrom step (j + 1) ts)[n]?).map ScheduledFadeIn.delay := by
                simp [staggeredFadeInsFrom]
            _ = some ((j + 1 + n) * step) := h2
            _ = some ((j + (n + 1)) * step) := by rw [hidx]

/-- In a burst, once a timer is pending for the most recent call, the rest of
the trace yields exactly one invocation: at the time of the last call plus
`wait`, with the arguments of the last call. -/
theorem debounceProcess_burst (wait t : Nat) (a : α) (calls : List (Nat × α))
    (h : burstAfter wait t calls = true) :
    debounceProcess wait (some (t + wait, a)) calls =
      [((calls.getLastD (t, a)).1 + wait, (calls.getLastD (t, a)).2)] := by
  induction calls generalizing t a with
  | nil => simp [debounceProcess, List.getLastD]
  | cons c rest ih =>
      obtain ⟨t2, a2⟩ := c
      unfold burstAfter at h
      simp only [Bool.and_eq_true, decide_eq_true_eq] at h
      obtain ⟨hlt, hrest⟩ := h
      have hstep : debounceProcess wait (some (t + wait, a)) ((t2, a2) :: rest) =
          debounceProcess wait (some (t2 + wait, a2)) rest := by
        conv_lhs => rw [debounceProcess]
        simp [hlt]
      rw [hstep, List.getLastD_cons]
      exact ih t2 a2 hrest

/-! ## Claim theorems -/

/-- C3: for every stored `animations.enabled` and every reduced-motion state,
`areAnimationsEnabled()` returns `animations.enabled AND NOT
reduced-motion-matches`, and returns false whenever the reduced-motion query
matches, regardless of `animations.enabled`. -/
theorem areAnimationsEnabled_spec (animations : AnimationsConfig) (env : MediaEnvironment) :
    areAnimationsEnabled animations env = (animations.enabled && !env.prefersReducedMotion)
    ∧ (env.prefersReducedMotion = true → areAnimationsEnabled animations env = false) := by
  constructor
  · simp [areAnimationsEnabled, matchMediaMatches]
  · intro h
    simp [areAnimationsEnabled, matchMediaMatches, h]

/-- C3 witness: with `animations.enabled = true` and reduced motion
requested, `areAnimationsEnabled()` is false. -/
theorem areAnimationsEnabled_spec_witness :
    areAnimationsEnabled ⟨true, 300, "ease-in-out"⟩ ⟨true⟩ = false :=
  (areAnimationsEnabled_spec ⟨true, 300, "ease-in-out"⟩ ⟨true⟩).2 rfl

/-- C7: for every click on a project link (default not yet prevented), the
handler prevents the default navigation and emits a log if and only if the
href attribute of the link is exactly `#`; any other href leaves the event
and the console untouched. -/
theorem handleProjectClick_spec (event : ClickEvent) (i : Nat)
    (h0 : event.defaultPrevented = false) :
    ((handleProjectClick event i).1.defaultPrevented = true ↔
        getAttribute event.targetAttrs "href" = some "#")
    ∧ ((handleProjectClick event i).2 ≠ [] ↔
        getAttribute event.targetAttrs "href" = some "#")
    ∧ (getAttribute event.targetAttrs "href" ≠ some "#" →
        handleProjectClick event i = (event, [])) := by
  unfold handleProjectClick
  by_cases h : getAttribute event.targetAttrs "href" = some "#" <;>
    simp [h, h0]

/-- C7 witness: a click on a link with `href` exactly `#` is prevented, and
one with a real URL is not intercepted. -/
theorem handleProjectClick_spec_witness :
    (handleProjectClick ⟨[("href", "#")], false⟩ 0).1.defaultPrevented = true
    ∧ handleProjectClick ⟨[("href", "https://x")], false⟩ 1 =
        (⟨[("href", "https://x")], false⟩, []) :=
  ⟨(handleProjectClick_spec ⟨[("href", "#")], false⟩ 0 rfl).1.mpr rfl,
   (handleProjectClick_spec ⟨[("href", "https://x")], false⟩ 1 rfl).2.2 (by decide)⟩

/-- C8: for every scroll position `p`, after the scroll handler runs with a
header present the header has the class `scrolled` exactly when `p > 100`;
in particular 101 sets the class and 100 does not. -/
theorem handleScroll_spec (p : Nat) (h : Element) :
    hasClass (handleScroll p (some h)) "scrolled" = decide (p > 100)
    ∧ hasClass (handleScroll 101 (some h)) "scrolled" = true
    ∧ hasClass (handleScroll 100 (some h)) "scrolled" = false := by
  refine ⟨hasClass_handleScroll p h, ?_, ?_⟩
  · rw [hasClass_handleScroll]
    decide
  · rw [hasClass_handleScroll]
    decide

/-- C6: `updateUserInfo(u)` modifies each of the three target nodes only if
that node exists and the corresponding field of `u` is provided (and truthy);
every node whose field is omitted keeps its previous text — in particular a
call providing only `name` changes only the name node. -/
theorem updateUserInfo_frame (dom : HeroDom) (u : UserInfo) :
    (u.name = none → (updateUserInfo dom u).nameText = dom.nameText)
    ∧ (u.tagline = none → (updateUserInfo dom u).taglineText = dom.taglineText)
    ∧ (u.summary = none → (updateUserInfo dom u).summaryText = dom.summaryText)
    ∧ ((updateUserInfo dom u).nameText ≠ dom.nameText →
        dom.nameText.isSome = true ∧ truthyStr u.name = true)
    ∧ ((updateUserInfo dom u).taglineText ≠ dom.taglineText →
        dom.taglineText.isSome = true ∧ truthyStr u.tagline = true)
    ∧ ((updateUserInfo dom u).summaryText ≠ dom.summaryText →
        dom.summaryText.isSome = true ∧ truthyStr u.summary = true) := by
  obtain ⟨dn, dt, ds⟩ := dom
  obtain ⟨un, ut, us⟩ := u
  unfold updateUserInfo
  cases dn <;> cases un <;> cases dt <;> cases ut <;> cases ds <;> cases us <;>
    simp [truthyStr] <;>
    repeat' (first | split_ifs | simp_all)

/-- C6 witness: with all three nodes present and only `name` provided, the
tagline and summary nodes keep their previous text while the name node was
allowed to change. -/
theorem updateUserInfo_frame_witness :
    (updateUserInfo ⟨some "A", some "B", some "C"⟩ { name := some "X" }).taglineText = some "B"
    ∧ (updateUserInfo ⟨some "A", some "B", some "C"⟩ { name := some "X" }).summaryText = some "C" :=
  ⟨(updateUserInfo_frame ⟨some "A", some "B", some "C"⟩ { name := some "X" }).2.1 rfl,
   (updateUserInfo_frame ⟨some "A", some "B", some "C"⟩ { name := some "X" }).2.2.1 rfl⟩

/-- C10: when `name` is provided (and truthy) and the name heading exists,
the heading text becomes the template `Olá, eu sou ` followed by the name —
never the supplied name verbatim. -/
theorem updateUserInfo_name_template (dom : HeroDom) (u : UserInfo) (n : String)
    (hn : u.name = some n) (hne : n ≠ "") (hdom : dom.nameText.isSome = true) :
    (updateUserInfo dom u).nameText = some ("Olá, eu sou " ++ n)
    ∧ (updateUserInfo dom u).nameText ≠ some n := by
  have hneq : ("Olá, eu sou " ++ n) ≠ n := by
    intro heq
    have hlen := congrArg String.length heq
    rw [String.length_append] at hlen
    have h12 : "Olá, eu sou ".length = 12 := by decide
    omega
  obtain ⟨dn, dt, ds⟩ := dom
  obtain ⟨un, ut, us⟩ := u
  cases hn
  cases dn with
  | none => simp at hdom
  | some d =>
      unfold updateUserInfo
      cases dt <;> cases ut <;> cases ds <;> cases us <;>
        simp [hne, hneq] <;>
        repeat' (first | split_ifs | simp_all)

/-- C10 witness: a concrete update writes the template string, not the bare
name. -/
theorem updateUserInfo_name_template_witness :
    (updateUserInfo ⟨some "old", none, none⟩ { name := some "X" }).nameText =
      some ("Olá, eu sou " ++ "X")
    ∧ (updateUserInfo ⟨some "old", none, none⟩ { name := some "X" }).nameText ≠ some "X" :=
  updateUserInfo_name_template ⟨some "old", none, none⟩ { name := some "X" } "X" rfl
    (by decide) rfl

/-- C4: a second `init()` on the Application Controller or on any Section
Controller is a no-op leaving all state unchanged, and starting from a fresh
app (resp. a section whose root element is present in the DOM) the setup work
runs exactly once across the two calls. -/
theorem init_idempotent (dom : List String) (app : PortfolioApp) (s : BaseSection)
    (sectionId : String) (hs : sectionId ∈ dom) :
    PortfolioApp.init dom (PortfolioApp.init dom app) = PortfolioApp.init dom app
    ∧ BaseSection.init (BaseSection.init s) = BaseSection.init s
    ∧ (PortfolioApp.init dom (PortfolioApp.init dom PortfolioApp.construct)).globalListenerSetups = 1
    ∧ (PortfolioApp.init dom (PortfolioApp.init dom PortfolioApp.construct)).scrollBehaviorSetups = 1
    ∧ (BaseSection.init (BaseSection.init (BaseSection.construct dom sectionId))).listenerSetups = 1
    ∧ (BaseSection.init (BaseSection.init (BaseSection.construct dom sectionId))).animationSetups = 1 := by
  have happ : PortfolioApp.init dom (PortfolioApp.init dom app) = PortfolioApp.init dom app :=
    portfolioApp_init_of_initd dom _ (portfolioApp_init_flag dom app)
  have hsec : ∀ t : BaseSection, BaseSection.init (BaseSection.init t) = BaseSection.init t := by
    intro t
    rcases baseSection_init_cases t with h | h
    · simp only [h]
    · exact baseSection_init_of_initd _ h
  have hfresh : (PortfolioApp.init dom PortfolioApp.construct).globalListenerSetups = 1
      ∧ (PortfolioApp.init dom PortfolioApp.construct).scrollBehaviorSetups = 1 := by
    unfold PortfolioApp.init PortfolioApp.construct buildSections
    simp
  have honce : (BaseSection.init (BaseSection.construct dom sectionId)).listenerSetups = 1
      ∧ (BaseSection.init (BaseSection.construct dom sectionId)).animationSetups = 1 := by
    unfold BaseSection.init BaseSection.construct
    simp [hs]
  refine ⟨happ, hsec s, ?_, ?_, ?_, ?_⟩
  · rw [portfolioApp_init_of_initd dom _ (portfolioApp_init_flag dom _)]
    exact hfresh.1
  · rw [portfolioApp_init_of_initd dom _ (portfolioApp_init_flag dom _)]
    exact hfresh.2
  · rw [hsec]
    exact honce.1
  · rw [hsec]
    exact honce.2

/-- C4 witness: with `#hero` present, double initialisation wires listeners
exactly once. -/
theorem init_idempotent_witness :
    (BaseSection.init (BaseSection.init (BaseSection.construct ["hero"] "hero"))).listenerSetups = 1
    ∧ (PortfolioApp.init ["hero"] (PortfolioApp.init ["hero"] PortfolioApp.construct)).globalListenerSetups = 1 :=
  ⟨(init_idempotent ["hero"] PortfolioApp.construct (BaseSection.construct [] "x") "hero"
      (by decide)).2.2.2.2.1,
   (init_idempotent ["hero"] PortfolioApp.construct (BaseSection.construct [] "x") "hero"
      (by decide)).2.2.1⟩

/-- C5: for every section id matching no element in the DOM, construction is
total (the failed lookup yields `none` rather than an exception) and `init()`
is a no-op: the flag stays false and no listeners or animations are set up. -/
theorem missing_section_init_noop (dom : List String) (sectionId : String)
    (h : sectionId ∉ dom) :
    (BaseSection.construct dom sectionId).element = none
    ∧ (BaseSection.init (BaseSection.construct dom sectionId)).isInitd = false
    ∧ (BaseSection.init (BaseSection.construct dom sectionId)).listenerSetups = 0
    ∧ (BaseSection.init (BaseSection.construct dom sectionId)).animationSetups = 0
    ∧ BaseSection.init (BaseSection.construct dom sectionId) =
        BaseSection.construct dom sectionId := by
  have he : (BaseSection.construct dom sectionId).element = none := by
    unfold BaseSection.construct
    simp [h]
  have hi : BaseSection.init (BaseSection.construct dom sectionId) =
      BaseSection.construct dom sectionId := by
    unfold BaseSection.init
    simp [he]
  refine ⟨he, ?_, ?_, ?_, hi⟩ <;> rw [hi] <;> unfold BaseSection.construct <;> rfl

/-- C5 witness: a section id absent from a concrete document leaves the
controller uninitialised. -/
theorem missing_section_init_noop_witness :
    (BaseSection.init (BaseSection.construct ["hero", "projects"] "about")).isInitd = false :=
  (missing_section_init_noop ["hero", "projects"] "about" (by decide)).2.1

/-- C1 counterexample: take one pre-existing card with a link, wired by
`setupEventListeners` at initialisation, and call `addProject`.  The appended
card has no click handler on its link, while the pre-existing card carries
the indexed click handler: the click wiring is not identical. -/
theorem addProject_click_not_wired_cex :
    (List.getLastD
        (addProject true
          (wireProjectCards 0
            [{ title := "P0", description := "D0", hasLink := true, linkHref := "#",
               cardHandlers := [], linkHandlers := [] }])
          { title := "T", description := "D", link := "https://x" })
        (freshProjectCard { title := "T", description := "D", link := "https://x" })).linkHandlers
      = []
    ∧ (List.getLastD
        (wireProjectCards 0
          [{ title := "P0", description := "D0", hasLink := true, linkHref := "#",
             cardHandlers := [], linkHandlers := [] }])
        (freshProjectCard { title := "T", description := "D", link := "https://x" })).linkHandlers
      = [ProjectHandler.clickProject 0]
    ∧ (List.getLastD
        (addProject true
          (wireProjectCards 0
            [{ title := "P0", description := "D0", hasLink := true, linkHref := "#",
               cardHandlers := [], linkHandlers := [] }])
          { title := "T", description := "D", link := "https://x" })
        (freshProjectCard { title := "T", description := "D", link := "https://x" })).linkHandlers
      ≠ [ProjectHandler.clickProject 0] := by
  refine ⟨rfl, rfl, ?_⟩
  decide

/-- C1 (amended): with the grid present, `addProject` appends exactly one new
card whose link href equals the given link and whose hover handlers are the
same enter/leave pair `setupEventListeners` gives pre-existing cards (so a
simulated hover toggles the transform) — but the link click handler is NOT
wired on the new card; with the grid absent, nothing changes. -/
theorem addProject_spec (cards : List ProjectCard) (d : ProjectData) :
    addProject true cards d =
      cards ++ [{ title := d.title, description := d.description, hasLink := true,
                  linkHref := d.link,
                  cardHandlers := [ProjectHandler.mouseenterHover, ProjectHandler.mouseleaveHover],
                  linkHandlers := [] }]
    ∧ (addProject true cards d).length = cards.length + 1
    ∧ (∀ i c, (wireProjectCard i c).cardHandlers =
        c.cardHandlers ++ [ProjectHandler.mouseenterHover, ProjectHandler.mouseleaveHover])
    ∧ (∀ c, (setupProjectCard c).cardHandlers =
        c.cardHandlers ++ [ProjectHandler.mouseenterHover, ProjectHandler.mouseleaveHover])
    ∧ (∀ t, runCardHandler true t ProjectHandler.mouseenterHover =
        "translateY(-10px) scale(1.02)")
    ∧ (∀ t, runCardHandler true t ProjectHandler.mouseleaveHover =
        "translateY(0) scale(1)")
    ∧ addProject false cards d = cards := by
  refine ⟨?_, ?_, ?_, ?_, ?_, ?_, rfl⟩
  · rfl
  · simp [addProject, setupProjectCard, freshProjectCard]
  · intro i c
    unfold wireProjectCard
    by_cases hl : c.hasLink = true <;> simp [hl]
  · intro c
    rfl
  · intro t
    rfl
  · intro t
    rfl

/-- C2 counterexample: with one project card, the fade-in delay scheduled
for observed card 0 is 0, while the claim (section base delay 200 plus
0 × 100) demands 200. -/
theorem stagger_base_delay_cex :
    ((projectsSetupAnimations true ["card0"])[1]?).map ScheduledFadeIn.delay = some 0
    ∧ animationDelayOrZero (getSectionConfig "projects") = 200
    ∧ ((projectsSetupAnimations true ["card0"])[1]?).map ScheduledFadeIn.delay ≠
        some (animationDelayOrZero (getSectionConfig "projects") + 0 * 100) := by
  refine ⟨rfl, rfl, ?_⟩
  decide

/-- C2 (amended): the Nth observed project card is scheduled with delay
N × 100 and the Nth observed skill tag with N × 50, with no section base
delay added; the section base delay is instead the delay of the section root
fade-in, and nothing is scheduled when animations are disabled. -/
theorem stagger_spec (cards tags : List String) (i : Nat)
    (hc : i < cards.length) (ht : i < tags.length) :
    ((projectsSetupAnimations true cards)[i + 1]?).map ScheduledFadeIn.delay = some (i * 100)
    ∧ ((skillsSetupAnimations true tags)[i + 1]?).map ScheduledFadeIn.delay = some (i * 50)
    ∧ ((projectsSetupAnimations true cards)[0]?).map ScheduledFadeIn.delay =
        some (animationDelayOrZero (getSectionConfig "projects"))
    ∧ ((skillsSetupAnimations true tags)[0]?).map ScheduledFadeIn.delay =
        some (animationDelayOrZero (getSectionConfig "skills"))
    ∧ projectsSetupAnimations false cards = []
    ∧ skillsSetupAnimations false tags = [] := by
  have hp := staggeredFadeInsFrom_delay 100 cards 0 i hc
  have hsk := staggeredFadeInsFrom_delay 50 tags 0 i ht
  rw [Nat.zero_add] at hp hsk
  refine ⟨?_, ?_, ?_, ?_, rfl, rfl⟩
  case refine_3 => simp [projectsSetupAnimations]
  case refine_4 => simp [skillsSetupAnimations]
  · calc ((projectsSetupAnimations true cards)[i + 1]?).map ScheduledFadeIn.delay
        = ((staggeredFadeInsFrom 100 0 cards)[i]?).map ScheduledFadeIn.delay := by
          simp [projectsSetupAnimations, staggeredFadeIns]
      _ = some (i * 100) := hp
  · calc ((skillsSetupAnimations true tags)[i + 1]?).map ScheduledFadeIn.delay
        = ((staggeredFadeInsFrom 50 0 tags)[i]?).map ScheduledFadeIn.delay := by
          simp [skillsSetupAnimations, staggeredFadeIns]
      _ = some (i * 50) := hsk

/-- C2 witness: with two cards and two tags, observed element 1 of each list
is delayed 100 and 50 respectively. -/
theorem stagger_spec_witness :
    ((projectsSetupAnimations true ["c0", "c1"])[2]?).map ScheduledFadeIn.delay = some 100
    ∧ ((skillsSetupAnimations true ["t0", "t1"])[2]?).map ScheduledFadeIn.delay = some 50 :=
  ⟨(stagger_spec ["c0", "c1"] ["t0", "t1"] 1 (by decide) (by decide)).1,
   (stagger_spec ["c0", "c1"] ["t0", "t1"] 1 (by decide) (by decide)).2.1⟩

/-- C9: for every burst of calls to the 250ms-style debounced function in
which each call arrives strictly less than `wait` after the previous one, the
underlying function is invoked exactly once, `wait` after the last call of
the burst, with the arguments of that last call. -/
theorem debounce_burst_spec (wait t : Nat) (a : α) (rest : List (Nat × α))
    (h : burstAfter wait t rest = true) :
    debounceRun wait ((t, a) :: rest) =
      [((((t, a) :: rest).getLastD (t, a)).1 + wait,
        (((t, a) :: rest).getLastD (t, a)).2)] := by
  have h0 : debounceRun wait ((t, a) :: rest) =
      debounceProcess wait (some (t + wait, a)) rest := rfl
  rw [h0, List.getLastD_cons]
  exact debounceProcess_burst wait t a rest h

/-- C9 witness: five calls within 100ms under a 250ms window fire the
underlying function exactly once, at 350ms, with the arguments of the fifth
call. -/
theorem debounce_burst_spec_witness :
    burstAfter 250 0 [(25, 2), (50, 3), (75, 4), (100, 5)] = true
    ∧ debounceRun 250 [(0, 1), (25, 2), (50, 3), (75, 4), (100, 5)] = [(350, 5)] :=
  ⟨by decide,
   by
     have h := debounce_burst_spec 250 0 1 [(25, 2), (50, 3), (75, 4), (100, 5)] (by decide)
     simpa using h⟩

end Portfolio
